import Mathlib

/-!
# Verification of the Epson projector ESC/VP.net client

A shallow embedding of `custom_components/epson_projector_modern/projector.py`:
the `Connection` transport layer (buffer framing, FIFO pending-request
correlation, handshake, ready-probing) and the `Projector` session layer
(cached device status, monitor tick, disconnect handling).

Strings on the wire are modelled as `List Char`; the asyncio future attached
to each pending request is modelled by an identifier together with an explicit
settlement record (`FutResult`); exceptions escaping a code path are modelled
by explicit flags or `Except`.
-/

namespace Epson

/-! ## Protocol constants (class attributes of `Connection`) -/

def ESCVPNET : List Char := "ESC/VP.net".toList

def IMEVENT : List Char := "IMEVENT".toList

def SEND_TERMINATOR : List Char := "\r\n".toList

def RECV_TERMINATOR : List Char := "\r:".toList

def STATUS_OK : Nat := 0x20

/-- The `STATUS` table of human-readable handshake diagnostics, keyed by
status byte, exactly as in the source. `lookup` models Python dict access
(`none` ~ `KeyError`). -/
def STATUS : List (Nat × String) :=
  [ (0x20, "OK Normal termination"),
    (0x40, "Bad Request Request cannot be understood as its grammar is wrong."),
    (0x41, "Unauthorized. Password is required."),
    (0x43, "Forbidden Password is wrong."),
    (0x45, "Request not allowed Disallowed type request."),
    (0x53, "Service Unavailable The projector is BUSY, etc."),
    (0x55, "Protocol Version Not Supported") ]

/-! ## Pending requests and their settlement

A `Req` is one entry of `Connection._pending`: the command token the response
must start with, plus an identifier standing for the attached future. A
`FutResult` records how that future was settled: `ok resp` for
`fut.set_result(resp)`, `err` for `fut.set_exception(CommandError())`. -/

structure Req where
  id : Nat
  cmd : List Char
  deriving DecidableEq, Repr

inductive FutResult where
  | ok (resp : List Char)
  | err
  deriving DecidableEq, Repr

/-! ## Buffer framing: `Connection._try_consume_buffer_to_terminator`

Python's `self._buffer.find(self.RECV_TERMINATOR)` locates the first
occurrence of the two-byte terminator `"\r:"`. `findTerm` returns the text
before that first occurrence and the text after it, or `none` when the
terminator does not occur (Python's `find` returning `-1`). -/

def findTerm : List Char → Option (List Char × List Char)
  | c1 :: c2 :: rest =>
    if c1 = '\r' ∧ c2 = ':' then some ([], rest)
    else
      match findTerm (c2 :: rest) with
      | none => none
      | some (pre, post) => some (c1 :: pre, post)
  | _ => none

/-- `_try_consume_buffer_to_terminator`: on success the frame before the
terminator is consumed out of the buffer; otherwise the buffer is kept. -/
def tryConsumeBufferToTerminator (buf : List Char) : Option (List Char) × List Char :=
  match findTerm buf with
  | none => (none, buf)
  | some (pre, post) => (some pre, post)

/-! ## `Connection._try_consume_buffer` -/

/-- The loop `while self._buffer.startswith(':')`: consume each leading `':'`
and set the response event. Returns the remaining buffer and the event flag. -/
def consumeColons : List Char → Bool → List Char × Bool
  | [], ev => ([], ev)
  | c :: rest, ev => if c = ':' then consumeColons rest true else (c :: rest, ev)

/-- The mismatch-resync loop of `_try_consume_buffer` (lines 128-133): the
current popped request `cur` is checked against the frame `resp`; a mismatch
logs a warning, fails `cur`, and pops the next queued request, until a match
is found (resolved with `resp`) or the queue empties. Returns the queue left
after the loop, the settlements in the order they happened, and the number of
mismatch warnings logged. -/
def matchLoop (resp : List Char) : Req → List Req → List Req × List (Req × FutResult) × Nat
  | cur, pending =>
    if cur.cmd.isPrefixOf resp then (pending, [(cur, .ok resp)], 0)
    else
      match pending with
      | [] => ([], [(cur, .err)], 1)
      | next :: rest =>
        let out := matchLoop resp next rest
        (out.1, (cur, .err) :: out.2.1, out.2.2 + 1)

/-- Observable outcome of one `_try_consume_buffer` call. `raised` records a
`QueueEmpty` exception escaping from `self._pending.get_nowait()` on an empty
queue; `events` the payloads dispatched through `self._on_imevent`; `warns`
the number of mismatch warnings logged. -/
structure ConsumeOut where
  buffer : List Char
  pending : List Req
  event : Bool
  events : List (List Char)
  settled : List (Req × FutResult)
  warns : Nat
  raised : Bool
  deriving DecidableEq, Repr

/-- The body of `_try_consume_buffer` after the leading-colon loop (lines
111-133). The response event is neither read nor set past that loop, so the
`event` field is filled in by the `tryConsumeBuffer` wrapper. -/
def tryConsumeBufferCore (buf1 : List Char) (pending0 : List Req) : ConsumeOut :=
  let noop : List Char → ConsumeOut := fun b =>
    { buffer := b, pending := pending0, event := false,
      events := [], settled := [], warns := 0, raised := false }
  if IMEVENT.isPrefixOf buf1 then
    let tc := tryConsumeBufferToTerminator buf1
    match tc.1 with
    | some resp =>
      if resp.isEmpty then noop tc.2
      else { noop tc.2 with events := [resp.drop (IMEVENT.length + 1)] }
    | none => noop tc.2
  else if ESCVPNET.isPrefixOf buf1 ∧ buf1.length < 16 then
    noop buf1
  else
    let buf2 := if ESCVPNET.isPrefixOf buf1
      then buf1.take 16 ++ RECV_TERMINATOR ++ buf1.drop 16
      else buf1
    let tc := tryConsumeBufferToTerminator buf2
    match tc.1 with
    | none => noop tc.2
    | some resp =>
      if resp.isEmpty then noop tc.2
      else
        match pending0 with
        | [] => { noop tc.2 with raised := true }
        | first :: rest =>
          if resp = "ERR".toList then
            { noop tc.2 with pending := rest, settled := [(first, .err)] }
          else
            let ml := matchLoop resp first rest
            { noop tc.2 with pending := ml.1, settled := ml.2.1, warns := ml.2.2 }

/-- `Connection._try_consume_buffer`, lines 106-133, as a function of the
buffer, the pending queue and the response-event flag: the leading-colon
loop first (consuming markers, setting the event), then the frame logic. -/
def tryConsumeBuffer (buf0 : List Char) (pending0 : List Req) (ev0 : Bool) : ConsumeOut :=
  let cc := consumeColons buf0 ev0
  { tryConsumeBufferCore cc.1 pending0 with event := cc.2 }

/-! ## `Connection.connection_lost` (lines 56-62)

`while self._pending.qsize(): get_nowait; fut.set_exception(CommandError())`,
then the buffer is reset and `self._on_disconnect()` is invoked. -/

/-- The drain loop of `connection_lost`: each queued request, oldest first,
has its future failed with `CommandError`. -/
def failPending : List Req → List (Req × FutResult)
  | [] => []
  | r :: rest => (r, .err) :: failPending rest

structure LostOut where
  settled : List (Req × FutResult)
  buffer : List Char
  disconnectFired : Bool
  deriving DecidableEq, Repr

def connection_lost (pending : List Req) : LostOut :=
  { settled := failPending pending, buffer := [], disconnectFired := true }

/-! ## `Connection.send_command` / `send_command_no_response` (lines 70-79) -/

/-- `send_command_no_response`: the bytes written to the transport are
`command + terminator` (the caller passes the full text as `command`). -/
def send_command_no_response (command terminator : List Char) : List Char :=
  command ++ terminator

/-- One observable action of `send_command`, in program order. -/
inductive SendAction where
  | enqueue (r : Req)
  | write (bytes : List Char)
  deriving DecidableEq, Repr

/-- `send_command(command, arg, terminator)`: first `put_nowait((command,
future))` on the pending queue, then `send_command_no_response(command + arg,
terminator)`. `fid` stands for the freshly created future. -/
def send_command (fid : Nat) (command arg terminator : List Char) : List SendAction :=
  [ .enqueue ⟨fid, command⟩,
    .write (send_command_no_response (command ++ arg) terminator) ]

/-! ## `Connection.handshake` (lines 81-84) and `Projector._connect` -/

/-- How the handshake body terminates once the response frame `resp` is in
hand: `ok` for a normal return; `handshakeError msg` for
`RuntimeError("Handshake error: " + STATUS[status])`; `keyError s` for the
`KeyError` that `STATUS[status]` raises when `status` is not a key of the
table; `indexError` for `resp[14]` on a too-short frame. -/
inductive HandshakeResult where
  | ok
  | handshakeError (msg : String)
  | keyError (status : Nat)
  | indexError
  deriving DecidableEq, Repr

/-- `handshake` after the response arrives: `status = ord(resp[14])`; return
normally iff `status == STATUS_OK`, else raise. -/
def handshake_check (resp : List Char) : HandshakeResult :=
  match resp.get? 14 with
  | none => .indexError
  | some c =>
    let status := c.toNat
    if status = STATUS_OK then .ok
    else
      match STATUS.lookup status with
      | some msg => .handshakeError ("Handshake error: " ++ msg)
      | none => .keyError status

/-! ## `Connection.wait_ready` (lines 86-96)

The asynchronous control flow is determined by when the response event gets
set. `arrivals.headI` at recursion depth `i` says whether the event becomes
set during attempt `i`'s five-second wait (the only setter is the frame
parser). The outputs: whether `self.close()` ran at the end, and how many
empty probes were written. -/

structure WaitReadyOut where
  closedConn : Bool
  probes : Nat
  deriving DecidableEq, Repr

/-- The `for i in range(0, 6)` loop: at each iteration, return if the event
is set; otherwise send an empty probe and wait (a timeout is swallowed).
Falling out of the loop closes the connection. -/
def waitReadyLoop : Nat → Bool → List Bool → WaitReadyOut
  | 0, _, _ => { closedConn := true, probes := 0 }
  | n + 1, ev, arrivals =>
    if ev then { closedConn := false, probes := 0 }
    else
      let out := waitReadyLoop n (ev || arrivals.headI) arrivals.tail
      { closedConn := out.closedConn, probes := out.probes + 1 }

/-- `wait_ready`: first clear the event if it is set (so the loop starts with
the event clear regardless of `ev0`), then run the six-attempt loop. -/
def wait_ready (ev0 : Bool) (arrivals : List Bool) : WaitReadyOut :=
  waitReadyLoop 6 (if ev0 then false else ev0) arrivals

/-! ## `Projector` session state and accessors (lines 141-181, 267-272) -/

structure ProjState where
  serial_number : Option (List Char)
  power_status : Option Int
  source : Option (List Char)
  sources_dict : List (List Char × List Char)
  connection : Bool
  deriving DecidableEq, Repr

/-- The `power` property: `self._power_status and self._power_status in
[1, 2]`, read as Python truthiness (a `None` or falsy short-circuit yields a
falsy value). -/
def ProjState.power (st : ProjState) : Bool :=
  match st.power_status with
  | none => false
  | some n => decide (n = 1 ∨ n = 2)

/-- The `connection_ok` property: `self._connection != None`. -/
def ProjState.connection_ok (st : ProjState) : Bool := st.connection

/-- The `source_list` property: the values of `self._sources_dict`. -/
def ProjState.source_list (st : ProjState) : List (List Char) :=
  st.sources_dict.map Prod.snd

/-- The `source` property: `self._sources_dict[self._source]`, with any
lookup failure caught and turned into `'unknown'`. -/
def ProjState.sourceName (st : ProjState) : List Char :=
  match st.source with
  | none => "unknown".toList
  | some code =>
    match st.sources_dict.lookup code with
    | some name => name
    | none => "unknown".toList

/-- `Projector._on_disconnect`: `self._connection = None` and nothing else. -/
def on_disconnect (st : ProjState) : ProjState :=
  { st with connection := false }

/-- One observable action of the session layer. -/
inductive SessionAction where
  | scheduleRefresh
  deriving DecidableEq, Repr

/-- `Projector._on_imevent(data)`: log, then
`asyncio.ensure_future(self._update_status())` — exactly one scheduled
refresh, never awaited inline. -/
def on_imevent (_data : List Char) : List SessionAction :=
  [ .scheduleRefresh ]

/-- `Projector._connect` up to the point that decides readiness: `await
connection.handshake()` runs first, and only on its normal return does
`self._connection = connection` execute; a handshake exception propagates and
leaves the state untouched. -/
def projector_connect (st : ProjState) (resp : List Char) :
    Except HandshakeResult ProjState :=
  match handshake_check resp with
  | .ok => .ok { st with connection := true }
  | e => .error e

/-! ## `Projector._monitor_connection_once` (lines 224-235)

`age` is the `timedelta` returned by `last_response_age`, in microseconds
(the resolution of Python's `datetime`). -/

inductive ConnectOutcome where
  | ok
  | timeout
  | failed
  deriving DecidableEq, Repr

inductive MonitorAction where
  | keepalive
  | closeConn
  | connectAttempt
  deriving DecidableEq, Repr

/-- Microseconds per minute: `timedelta` comparisons have microsecond
resolution. -/
def usPerMinute : Nat := 60000000

/-- One monitor tick: the actions it performs, in program order, and whether
an exception escapes. Connected: `if age > timedelta(minutes=1)` send a
keepalive; then `if age > timedelta(minutes=3)` force-close. Disconnected:
one `_connect` attempt; its `TimeoutError` is swallowed, while any other
connect failure propagates out of `_monitor_connection_once` (to be logged
by the monitor loop). -/
def monitor_once (connected : Bool) (ageUs : Nat) (outcome : ConnectOutcome) :
    List MonitorAction × Bool :=
  if connected then
    ((if usPerMinute < ageUs then [MonitorAction.keepalive] else []) ++
      (if 3 * usPerMinute < ageUs then [MonitorAction.closeConn] else []), false)
  else
    ([MonitorAction.connectAttempt], decide (outcome = ConnectOutcome.failed))

/-! ## Helper lemmas -/

theorem consumeColons_cons_ne {c : Char} (l : List Char) (ev : Bool) (hc : c ≠ ':') :
    consumeColons (c :: l) ev = (c :: l, ev) := by
  simp [consumeColons, hc]

theorem consumeColons_cons_colon (l : List Char) (ev : Bool) :
    consumeColons (':' :: l) ev = consumeColons l true := by
  simp [consumeColons]

theorem consumeColons_true_snd (l : List Char) : (consumeColons l true).2 = true := by
  induction l with
  | nil => rfl
  | cons c rest ih =>
    by_cases hc : c = ':'
    · subst hc; rw [consumeColons_cons_colon]; exact ih
    · rw [consumeColons_cons_ne rest true hc]

theorem findTerm_cons {c : Char} (l : List Char) (hc : c ≠ '\r') :
    findTerm (c :: l) = (findTerm l).map fun p => (c :: p.1, p.2) := by
  cases l with
  | nil => simp [findTerm]
  | cons c2 l2 =>
    rw [findTerm]
    rw [if_neg (by simp [hc])]
    cases h : findTerm (c2 :: l2) <;> simp [h]

theorem findTerm_append (frame rest : List Char) (h : findTerm frame = none) :
    findTerm (frame ++ '\r' :: ':' :: rest) = some (frame, rest) := by
  induction frame with
  | nil => simp [findTerm]
  | cons c f ih =>
    by_cases hc : c = '\r'
    · subst hc
      cases f with
      | nil =>
        rw [List.cons_append, List.nil_append, findTerm]
        rw [if_neg (by simp), findTerm, if_pos (by simp)]
      | cons c2 f2 =>
        rw [findTerm] at h
        by_cases h2 : c2 = ':'
        · rw [if_pos (by simp [h2])] at h; exact absurd h (by simp)
        · rw [if_neg (by simp [h2])] at h
          have hf : findTerm (c2 :: f2) = none := by
            cases hf : findTerm (c2 :: f2) with
            | none => rfl
            | some p => rw [hf] at h; exact absurd h (by simp)
          have hrec := ih hf
          rw [List.cons_append] at hrec
          rw [List.cons_append, List.cons_append, findTerm,
            if_neg (by simp [h2]), hrec]
    · have hf : findTerm f = none := by
        cases frm : findTerm f with
        | none => rfl
        | some p =>
          rw [findTerm_cons _ hc, frm] at h
          exact absurd h (by simp)
      rw [List.cons_append, findTerm_cons _ hc, ih hf]
      rfl

theorem matchLoop_eq (resp : List Char) (first : Req) (rest : List Req) :
    matchLoop resp first rest =
      (match (first :: rest).dropWhile (fun r => !(r.cmd.isPrefixOf resp)) with
      | [] =>
        ([], ((first :: rest).takeWhile fun r => !(r.cmd.isPrefixOf resp)).map
            (fun r => (r, FutResult.err)),
          ((first :: rest).takeWhile fun r => !(r.cmd.isPrefixOf resp)).length)
      | g :: after =>
        (after,
          (((first :: rest).takeWhile fun r => !(r.cmd.isPrefixOf resp)).map
            fun r => (r, FutResult.err)) ++ [(g, FutResult.ok resp)],
          ((first :: rest).takeWhile fun r => !(r.cmd.isPrefixOf resp)).length)) := by
  induction rest generalizing first with
  | nil =>
    by_cases h : first.cmd.isPrefixOf resp <;>
      simp [matchLoop, List.takeWhile_cons, List.dropWhile_cons, h]
  | cons next rs ih =>
    by_cases h : first.cmd.isPrefixOf resp
    · have htw : (first :: next :: rs).takeWhile (fun r => !(r.cmd.isPrefixOf resp))
          = [] := by
        rw [List.takeWhile_cons, if_neg (by simp [h])]
      have hdw : (first :: next :: rs).dropWhile (fun r => !(r.cmd.isPrefixOf resp))
          = first :: next :: rs := by
        rw [List.dropWhile_cons, if_neg (by simp [h])]
      rw [matchLoop, if_pos h, htw, hdw]
      simp
    · have hp : (!(first.cmd.isPrefixOf resp)) = true := by simp [h]
      have htw : (first :: next :: rs).takeWhile (fun r => !(r.cmd.isPrefixOf resp))
          = first :: (next :: rs).takeWhile (fun r => !(r.cmd.isPrefixOf resp)) := by
        rw [List.takeWhile_cons, if_pos hp]
      have hdw : (first :: next :: rs).dropWhile (fun r => !(r.cmd.isPrefixOf resp))
          = (next :: rs).dropWhile (fun r => !(r.cmd.isPrefixOf resp)) := by
        rw [List.dropWhile_cons, if_pos hp]
      rw [matchLoop, if_neg (by simp [h]), ih next, htw, hdw]
      cases hd : (next :: rs).dropWhile (fun r => !(r.cmd.isPrefixOf resp)) with
      | nil => simp [hd]
      | cons g after => simp [hd]

/-- A buffer holding one complete plain frame (not an event frame, not a
handshake echo, not opening with a bare marker) followed by arbitrary bytes:
what `_try_consume_buffer` does to it, for any pending queue. -/
theorem tryConsumeBufferCore_plain (frame rest : List Char) (pending : List Req)
    (hterm : findTerm frame = none)
    (hne : frame ≠ [])
    (him : IMEVENT.isPrefixOf (frame ++ '\r' :: ':' :: rest) = false)
    (hesc : ESCVPNET.isPrefixOf (frame ++ '\r' :: ':' :: rest) = false) :
    tryConsumeBufferCore (frame ++ '\r' :: ':' :: rest) pending =
      (match pending with
      | [] => { buffer := rest, pending := [], event := false, events := [],
                settled := [], warns := 0, raised := true }
      | first :: rtl =>
        if frame = "ERR".toList then
          { buffer := rest, pending := rtl, event := false, events := [],
            settled := [(first, FutResult.err)], warns := 0, raised := false }
        else
          { buffer := rest, pending := (matchLoop frame first rtl).1, event := false,
            events := [], settled := (matchLoop frame first rtl).2.1,
            warns := (matchLoop frame first rtl).2.2, raised := false }) := by
  have hfind : findTerm (frame ++ '\r' :: ':' :: rest) = some (frame, rest) :=
    findTerm_append frame rest hterm
  simp only [tryConsumeBufferCore, him, hesc, Bool.false_eq_true, if_false,
    false_and, tryConsumeBufferToTerminator, hfind]
  simp only [List.isEmpty_iff, hne, if_false]
  cases pending with
  | nil => rfl
  | cons first rtl =>
    by_cases herr : frame = "ERR".toList <;> simp [herr]

/-- When the buffer does not open with a bare `':'` marker, the leading-colon
loop is a no-op and `_try_consume_buffer` reduces to its body. -/
theorem tryConsumeBuffer_eq_core (buf : List Char) (pending : List Req) (ev : Bool)
    (h : buf.headI ≠ ':') :
    tryConsumeBuffer buf pending ev =
      { tryConsumeBufferCore buf pending with event := ev } := by
  cases buf with
  | nil => rfl
  | cons c l =>
    have hcc : consumeColons (c :: l) ev = (c :: l, ev) :=
      consumeColons_cons_ne l ev (by simpa using h)
    simp only [tryConsumeBuffer, hcc]

/-- Consuming one leading `':'` marker: the call continues on the remaining
buffer with the response event set. -/
theorem tryConsumeBuffer_cons_colon (buf : List Char) (pending : List Req) (ev : Bool) :
    tryConsumeBuffer (':' :: buf) pending ev = tryConsumeBuffer buf pending true := by
  simp only [tryConsumeBuffer, consumeColons_cons_colon]

theorem tryConsumeBuffer_event_eq (buf : List Char) (pending : List Req) (ev : Bool) :
    (tryConsumeBuffer buf pending ev).event = (consumeColons buf ev).2 := rfl

/-! ## Claim C1 -/

/-- C1 is refuted by the error frame: the claim mandates that any non-event
frame that does not start with the oldest pending request's command token
fails that request *and retries against the next queued request* until a
match or queue exhaustion, with a logged warning. For the frame `ERR` with
queue `[PWR, SNO]` — `ERR` does not start with `PWR` — the code takes the
dedicated error branch instead: it fails only the oldest request, leaves
`SNO` pending, and logs no mismatch warning. -/
theorem c1_err_frame_skips_resync :
    (tryConsumeBuffer ("ERR\r:".toList) [⟨0, "PWR".toList⟩, ⟨1, "SNO".toList⟩]
        false).pending = [⟨1, "SNO".toList⟩] ∧
    (tryConsumeBuffer ("ERR\r:".toList) [⟨0, "PWR".toList⟩, ⟨1, "SNO".toList⟩]
        false).settled = [(⟨0, "PWR".toList⟩, FutResult.err)] ∧
    (tryConsumeBuffer ("ERR\r:".toList) [⟨0, "PWR".toList⟩, ⟨1, "SNO".toList⟩]
        false).warns = 0 := by
  refine ⟨rfl, rfl, rfl⟩

/-- C1 (amended): a complete plain frame pops the oldest pending request.
The literal frame `ERR` fails that request immediately, with no retry and no
warning. Any other frame that does not start with the popped request's
command token fails it with a logged warning and retries against the next
queued request, without consuming another frame, until a match is found
(resolved with the frame) or the queue empties (frame discarded, every
popped request failed, one warning per mismatch). Exactly one frame is
consumed from the buffer either way. -/
theorem c1_fifo_matching (frame rest : List Char) (q : Req) (qs : List Req) (ev : Bool)
    (hterm : findTerm frame = none)
    (hne : frame ≠ [])
    (hcolon : frame.headI ≠ ':')
    (him : IMEVENT.isPrefixOf (frame ++ '\r' :: ':' :: rest) = false)
    (hesc : ESCVPNET.isPrefixOf (frame ++ '\r' :: ':' :: rest) = false) :
    tryConsumeBuffer (frame ++ '\r' :: ':' :: rest) (q :: qs) ev =
      (if frame = "ERR".toList then
        { buffer := rest, pending := qs, event := ev, events := [],
          settled := [(q, FutResult.err)], warns := 0, raised := false }
      else
        match (q :: qs).dropWhile (fun r => !(r.cmd.isPrefixOf frame)) with
        | [] =>
          { buffer := rest, pending := [], event := ev, events := [],
            settled := ((q :: qs).takeWhile fun r => !(r.cmd.isPrefixOf frame)).map
              fun r => (r, FutResult.err),
            warns := ((q :: qs).takeWhile fun r => !(r.cmd.isPrefixOf frame)).length,
            raised := false }
        | g :: after =>
          { buffer := rest, pending := after, event := ev, events := [],
            settled := (((q :: qs).takeWhile fun r => !(r.cmd.isPrefixOf frame)).map
              fun r => (r, FutResult.err)) ++ [(g, FutResult.ok frame)],
            warns := ((q :: qs).takeWhile fun r => !(r.cmd.isPrefixOf frame)).length,
            raised := false }) := by
  obtain ⟨c, ftl, rfl⟩ : ∃ c ftl, frame = c :: ftl := by
    cases frame with
    | nil => exact absurd rfl hne
    | cons c f => exact ⟨c, f, rfl⟩
  rw [tryConsumeBuffer_eq_core _ _ _ (by simpa using hcolon),
    tryConsumeBufferCore_plain _ _ _ hterm hne him hesc]
  by_cases herr : c :: ftl = "ERR".toList
  · simp [herr]
  · have herr2 : ¬(c = 'E' ∧ ftl = ['R', 'R']) := fun h => herr (by rw [h.1, h.2]; rfl)
    cases hd : (q :: qs).dropWhile (fun r => !(r.cmd.isPrefixOf (c :: ftl))) with
    | nil => simp [herr, herr2, matchLoop_eq, hd]
    | cons g after => simp [herr, herr2, matchLoop_eq, hd]

/-- Witness for `c1_fifo_matching`: frame `SNO=X` against queue
`[PWR, SNO]` — the mismatched oldest request `PWR` is failed with one
warning, then `SNO` matches and resolves with the frame. -/
theorem c1_fifo_matching_witness :
    findTerm ("SNO=X".toList) = none ∧ "SNO=X".toList ≠ [] ∧
    ("SNO=X".toList).headI ≠ ':' ∧
    IMEVENT.isPrefixOf ("SNO=X".toList ++ '\r' :: ':' :: []) = false ∧
    ESCVPNET.isPrefixOf ("SNO=X".toList ++ '\r' :: ':' :: []) = false ∧
    tryConsumeBuffer ("SNO=X".toList ++ '\r' :: ':' :: [])
        [⟨0, "PWR".toList⟩, ⟨1, "SNO".toList⟩] false =
      { buffer := [], pending := [], event := false, events := [],
        settled := [(⟨0, "PWR".toList⟩, FutResult.err),
          (⟨1, "SNO".toList⟩, FutResult.ok ("SNO=X".toList))],
        warns := 1, raised := false } :=
  ⟨by decide, by decide, by decide, by decide, by decide,
    c1_fifo_matching ("SNO=X".toList) [] ⟨0, "PWR".toList⟩ [⟨1, "SNO".toList⟩] false
      (by decide) (by decide) (by decide) (by decide) (by decide)⟩

/-! ## Claim C10 -/

/-- C10: a complete plain frame (non-event, non-handshake) extracted while
the pending queue is empty makes `self._pending.get_nowait()` raise
(`raised = true`): the exception escapes the data-received path; the frame is
not silently discarded into any settlement or event dispatch. -/
theorem c10_empty_queue_raises (frame rest : List Char) (ev : Bool)
    (hterm : findTerm frame = none)
    (hne : frame ≠ [])
    (hcolon : frame.headI ≠ ':')
    (him : IMEVENT.isPrefixOf (frame ++ '\r' :: ':' :: rest) = false)
    (hesc : ESCVPNET.isPrefixOf (frame ++ '\r' :: ':' :: rest) = false) :
    tryConsumeBuffer (frame ++ '\r' :: ':' :: rest) [] ev =
      { buffer := rest, pending := [], event := ev, events := [],
        settled := [], warns := 0, raised := true } := by
  obtain ⟨c, ftl, rfl⟩ : ∃ c ftl, frame = c :: ftl := by
    cases frame with
    | nil => exact absurd rfl hne
    | cons c f => exact ⟨c, f, rfl⟩
  rw [tryConsumeBuffer_eq_core _ _ _ (by simpa using hcolon),
    tryConsumeBufferCore_plain _ _ _ hterm hne him hesc]

/-- Witness for `c10_empty_queue_raises`: the frame `PWR=01` arriving with
no request ever enqueued. -/
theorem c10_empty_queue_raises_witness :
    findTerm ("PWR=01".toList) = none ∧ "PWR=01".toList ≠ [] ∧
    ("PWR=01".toList).headI ≠ ':' ∧
    IMEVENT.isPrefixOf ("PWR=01".toList ++ '\r' :: ':' :: []) = false ∧
    ESCVPNET.isPrefixOf ("PWR=01".toList ++ '\r' :: ':' :: []) = false ∧
    tryConsumeBuffer ("PWR=01".toList ++ '\r' :: ':' :: []) [] false =
      { buffer := [], pending := [], event := false, events := [],
        settled := [], warns := 0, raised := true } :=
  ⟨by decide, by decide, by decide, by decide, by decide,
    c10_empty_queue_raises ("PWR=01".toList) [] false
      (by decide) (by decide) (by decide) (by decide) (by decide)⟩

/-! ## Claim C2 -/

theorem failPending_eq_map (pending : List Req) :
    failPending pending = pending.map fun r => (r, FutResult.err) := by
  induction pending with
  | nil => rfl
  | cons r rest ih => simp [failPending, ih]

/-- C2: on `connection_lost`, every queued pending request — oldest first —
is failed with `CommandError`, the inbound buffer is reset to empty, and the
disconnect callback fires. In particular two pending requests both resolve
with `CommandError`. -/
theorem c2_connection_lost_fails_all (pending : List Req) :
    ((connection_lost pending).settled = pending.map fun r => (r, FutResult.err)) ∧
    (connection_lost pending).buffer = [] ∧
    (connection_lost pending).disconnectFired = true ∧
    (connection_lost [⟨0, "PWR".toList⟩, ⟨1, "SOURCE".toList⟩]).settled =
      [(⟨0, "PWR".toList⟩, FutResult.err), (⟨1, "SOURCE".toList⟩, FutResult.err)] :=
  ⟨failPending_eq_map pending, rfl, rfl, rfl⟩

/-! ## Claim C5 -/

/-- C5 counterexample: a buffer that begins with the two-byte terminator
CR + ':' is NOT treated as the bare ready marker. The leading-colon check is
`startswith(':')`, which `'\r'` fails; the two bytes then reach the
terminator scan, which extracts an empty frame at index 0, and
`if not resp: return` drops it. The bytes are consumed, but the ready event
is never signalled — refuting the claim for the marker CR + ':'. -/
theorem c5_crcolon_marker_not_ready :
    (tryConsumeBuffer ['\r', ':'] [] false).event = false ∧
    (tryConsumeBuffer ['\r', ':'] [] false).buffer = [] := ⟨rfl, rfl⟩

/-- C5 (amended): the bare ready marker recognised by the parser is a lone
`':'` (not CR + ':'): whenever the buffer begins with `':'`, that one byte is
consumed, the ready event is signalled, and parsing continues on the
remaining buffer with the event set. -/
theorem c5_lone_colon_signals_ready (buf : List Char) (pending : List Req) (ev : Bool) :
    tryConsumeBuffer (':' :: buf) pending ev = tryConsumeBuffer buf pending true ∧
    (tryConsumeBuffer (':' :: buf) pending ev).event = true := by
  refine ⟨tryConsumeBuffer_cons_colon buf pending ev, ?_⟩
  rw [tryConsumeBuffer_event_eq, consumeColons_cons_colon, consumeColons_true_snd]

/-! ## Claim C6 -/

/-- C6 counterexample: `send_command("PWR", "?")` writes `PWR?` + CR LF. No
space is inserted between command and argument, so the written bytes differ
from the claimed `command + " " + arg + terminator`. -/
theorem c6_no_space_between_command_and_arg :
    send_command 0 ("PWR".toList) ("?".toList) SEND_TERMINATOR =
      [SendAction.enqueue ⟨0, "PWR".toList⟩, SendAction.write ("PWR?\r\n".toList)] ∧
    "PWR?\r\n".toList ≠ "PWR".toList ++ " ".toList ++ "?".toList ++ SEND_TERMINATOR :=
  ⟨rfl, by decide⟩

/-- C6 (amended): `send_command(command, arg)` first enqueues a pending
request keyed by `command`, then writes exactly the bytes
`command + arg + terminator` (terminator CR LF) — no separator is
inserted between command and argument. -/
theorem c6_send_command_enqueues_then_writes (fid : Nat) (command arg : List Char) :
    send_command fid command arg SEND_TERMINATOR =
      [SendAction.enqueue ⟨fid, command⟩,
        SendAction.write (command ++ arg ++ '\r' :: '\n' :: [])] := by
  simp [send_command, send_command_no_response, SEND_TERMINATOR]

/-! ## Claim C7 -/

theorem isPrefixOf_append_self (l1 l2 : List Char) : l1.isPrefixOf (l1 ++ l2) = true := by
  induction l1 with
  | nil => simp [List.isPrefixOf]
  | cons c t ih => simp [List.isPrefixOf, ih]

/-- C7: a buffer opening with the event-prefix token `IMEVENT` whose frame is
complete (a terminator is present): the parser pops or settles no pending
request, dispatches exactly one event — the frame content after the prefix
token and its separator byte — leaves the rest of the buffer for the next
invocation, and the event callback `_on_imevent` schedules exactly one
asynchronous status refresh. -/
theorem c7_imevent_dispatch (tl : List Char) (pending : List Req) (ev : Bool)
    (frame rest : List Char)
    (hterm : findTerm (IMEVENT ++ tl) = some (frame, rest)) :
    tryConsumeBuffer (IMEVENT ++ tl) pending ev =
      { buffer := rest, pending := pending, event := ev,
        events := [frame.drop (IMEVENT.length + 1)], settled := [], warns := 0,
        raised := false } ∧
    ((tryConsumeBuffer (IMEVENT ++ tl) pending ev).events.map on_imevent).flatten =
      [SessionAction.scheduleRefresh] := by
  have hbuf : IMEVENT ++ tl = 'I' :: ("MEVENT".toList ++ tl) := rfl
  have hne : frame ≠ [] := by
    have h2 := hterm
    rw [hbuf, findTerm_cons _ (by decide)] at h2
    cases hX : findTerm ("MEVENT".toList ++ tl) with
    | none => rw [hX] at h2; exact absurd h2 (by simp)
    | some p =>
      rw [hX] at h2
      simp only [Option.map_some'] at h2
      have h3 : 'I' :: p.1 = frame := congrArg Prod.fst (Option.some.inj h2)
      rw [← h3]
      simp
  have him : IMEVENT.isPrefixOf (IMEVENT ++ tl) = true :=
    isPrefixOf_append_self IMEVENT tl
  have hmain : tryConsumeBuffer (IMEVENT ++ tl) pending ev =
      { buffer := rest, pending := pending, event := ev,
        events := [frame.drop (IMEVENT.length + 1)], settled := [], warns := 0,
        raised := false } := by
    rw [tryConsumeBuffer_eq_core _ _ _ (by rw [hbuf]; simp [List.headI])]
    simp only [tryConsumeBufferCore, him, if_true, tryConsumeBufferToTerminator, hterm]
    simp [List.isEmpty_iff, hne]
  exact ⟨hmain, by rw [hmain]; simp [on_imevent]⟩

/-- Witness for `c7_imevent_dispatch`: the event frame `IMEVENT 0A 01`
arriving while one `PWR` request is pending — the request is untouched, the
payload `0A 01` is dispatched once, one refresh is scheduled. -/
theorem c7_imevent_dispatch_witness :
    findTerm (IMEVENT ++ " 0A 01\r:".toList) = some ("IMEVENT 0A 01".toList, []) ∧
    tryConsumeBuffer (IMEVENT ++ " 0A 01\r:".toList) [⟨0, "PWR".toList⟩] false =
      { buffer := [], pending := [⟨0, "PWR".toList⟩], event := false,
        events := ["0A 01".toList], settled := [], warns := 0, raised := false } ∧
    ((tryConsumeBuffer (IMEVENT ++ " 0A 01\r:".toList)
        [⟨0, "PWR".toList⟩] false).events.map on_imevent).flatten =
      [SessionAction.scheduleRefresh] := by
  have h := c7_imevent_dispatch (" 0A 01\r:".toList) [⟨0, "PWR".toList⟩] false
    ("IMEVENT 0A 01".toList) [] (by decide)
  exact ⟨by decide, h.1, h.2⟩

/-! ## Claim C3 -/

/-- C3 counterexample: a 16-byte handshake response whose status byte
(offset 14) is `'!'` = 0x21, a value with no entry in the STATUS table. The
claim says any non-OK status byte raises an error carrying the table's
message for that byte; here the table has no message — the code's
`STATUS[status]` dict access itself raises a bare `KeyError` instead. -/
theorem c3_unknown_status_keyerror :
    handshake_check ("AAAAAAAAAAAAAA!Z".toList) = HandshakeResult.keyError 0x21 ∧
    STATUS.lookup 0x21 = none := ⟨rfl, rfl⟩

/-- C3 (amended): `handshake` inspects the byte at offset 14 of the response
frame. On 0x20 it returns normally, and only then does `_connect` set the
session's connection reference. On any other byte it raises — carrying the
table's message when the byte is a key of the STATUS table, and failing with
a `KeyError` from the table lookup itself otherwise — and the exception
propagates out of `_connect` before the connection reference is assigned. -/
theorem c3_handshake_status (st : ProjState) (resp : List Char) (c : Char)
    (h14 : resp.get? 14 = some c) :
    projector_connect st resp =
      (if c.toNat = STATUS_OK then Except.ok { st with connection := true }
       else Except.error
         (match STATUS.lookup c.toNat with
          | some msg => HandshakeResult.handshakeError ("Handshake error: " ++ msg)
          | none => HandshakeResult.keyError c.toNat)) ∧
    handshake_check resp =
      (if c.toNat = STATUS_OK then HandshakeResult.ok
       else
        match STATUS.lookup c.toNat with
        | some msg => HandshakeResult.handshakeError ("Handshake error: " ++ msg)
        | none => HandshakeResult.keyError c.toNat) := by
  have hch : handshake_check resp =
      (if c.toNat = STATUS_OK then HandshakeResult.ok
       else
        match STATUS.lookup c.toNat with
        | some msg => HandshakeResult.handshakeError ("Handshake error: " ++ msg)
        | none => HandshakeResult.keyError c.toNat) := by
    simp only [handshake_check, h14]
  refine ⟨?_, hch⟩
  by_cases hok : c.toNat = STATUS_OK
  · rw [if_pos hok]
    rw [if_pos hok] at hch
    simp [projector_connect, hch]
  · rw [if_neg hok]
    rw [if_neg hok] at hch
    cases hlk : STATUS.lookup c.toNat with
    | some msg => rw [hlk] at hch; simp [projector_connect, hch]
    | none => rw [hlk] at hch; simp [projector_connect, hch]

/-- Witness for `c3_handshake_status`: a response whose status byte is the
OK code 0x20 (the space character) — the handshake succeeds and the
connection reference is set. -/
theorem c3_handshake_status_witness :
    ("AAAAAAAAAAAAAA Z".toList).get? 14 = some ' ' ∧
    (projector_connect ⟨none, none, none, [], false⟩ ("AAAAAAAAAAAAAA Z".toList) =
        Except.ok ⟨none, none, none, [], true⟩ ∧
      handshake_check ("AAAAAAAAAAAAAA Z".toList) = HandshakeResult.ok) := by
  have h := c3_handshake_status ⟨none, none, none, [], false⟩
    ("AAAAAAAAAAAAAA Z".toList) ' ' (by decide)
  exact ⟨by decide, h⟩

/-! ## Claim C4 -/

/-- C4: `wait_ready` evaluated on decisive schedules. First conjunct — the
failing input: the ready signal arrives only during the sixth (final)
attempt's five-second wait; the loop still falls through after its six
iterations, so the connection is force-closed (after all 6 probes) even
though the signal arrived within the attempt budget, and the "timed out"
warning is logged although the final `wait_for` did not time out. Second
conjunct: a signal arriving during the fifth wait is seen by the sixth
iteration's check, which returns without closing. Third conjunct: a stale
pre-set signal is cleared first and does not count as an arrival. -/
theorem c4_sixth_attempt_arrival_still_closes :
    wait_ready false [false, false, false, false, false, true] =
      { closedConn := true, probes := 6 } ∧
    wait_ready false [false, false, false, false, true, false] =
      { closedConn := false, probes := 5 } ∧
    wait_ready true [] = { closedConn := true, probes := 6 } := by decide

/-! ## Claim C8 -/

/-- C8 counterexample: at a liveness age of exactly one minute the claim
(age ≥ 1 minute) requires exactly one keepalive this tick, and at exactly
three minutes (age ≥ 3 minutes) a forced close; the code compares with
strict `>` (`age > timedelta(minutes=1)`, `> timedelta(minutes=3)`) and
does neither at these boundary ages. -/
theorem c8_boundary_ages_no_action :
    (monitor_once true usPerMinute ConnectOutcome.ok).1.count
      MonitorAction.keepalive = 0 ∧
    MonitorAction.closeConn ∉ (monitor_once true (3 * usPerMinute)
      ConnectOutcome.ok).1 := by decide

/-- C8 (amended): on a tick with a live connection, exactly one keepalive is
sent iff the liveness age strictly exceeds 1 minute, and the connection is
force-closed iff the age strictly exceeds 3 minutes (the close is decided
independently of the keepalive); on a tick without a connection, exactly one
connect attempt is made and a connect timeout is swallowed (no exception
escapes the tick). -/
theorem c8_monitor_tick (ageUs : Nat) (outcome : ConnectOutcome) :
    (monitor_once true ageUs outcome).1.count MonitorAction.keepalive =
      (if usPerMinute < ageUs then 1 else 0) ∧
    (MonitorAction.closeConn ∈ (monitor_once true ageUs outcome).1 ↔
      3 * usPerMinute < ageUs) ∧
    (monitor_once true ageUs outcome).2 = false ∧
    (monitor_once false ageUs ConnectOutcome.timeout).1 =
      [MonitorAction.connectAttempt] ∧
    (monitor_once false ageUs ConnectOutcome.timeout).2 = false := by
  refine ⟨?_, ?_, by simp [monitor_once], by simp [monitor_once], by simp [monitor_once]⟩ <;>
    by_cases h1 : usPerMinute < ageUs <;> by_cases h3 : 3 * usPerMinute < ageUs <;>
      simp [monitor_once, h1, h3]

/-! ## Claim C9 -/

/-- C9 counterexample: a session cached as powered on (status code 1) with
current source `30` named `HDMI1`. After the disconnect callback runs,
`connection_ok` is false, but the cached power status and source are NOT
invalidated: the `power` accessor still reports the stale `true` and the
`source` accessor still reports the stale name `HDMI1` — refuting the claim
that they become unknown. -/
theorem c9_stale_power_and_source_after_disconnect :
    (on_disconnect ⟨some ("X123".toList), some 1, some ("30".toList),
        [("30".toList, "HDMI1".toList)], true⟩).power = true ∧
    (on_disconnect ⟨some ("X123".toList), some 1, some ("30".toList),
        [("30".toList, "HDMI1".toList)], true⟩).sourceName = "HDMI1".toList ∧
    (on_disconnect ⟨some ("X123".toList), some 1, some ("30".toList),
        [("30".toList, "HDMI1".toList)], true⟩).connection_ok = false := by
  decide

/-- C9 (amended): the disconnect callback only drops the Connection
reference: `connection_ok` becomes false, while the cached power status,
current source, serial number and source table are all left unchanged — the
`power` and `source` accessors keep reporting the cached (possibly stale)
values; consumers must gate on `connection_ok` to treat them as unknown. -/
theorem c9_disconnect_only_drops_reference (st : ProjState) :
    (on_disconnect st).connection_ok = false ∧
    (on_disconnect st).power = st.power ∧
    (on_disconnect st).sourceName = st.sourceName ∧
    (on_disconnect st).serial_number = st.serial_number ∧
    (on_disconnect st).sources_dict = st.sources_dict ∧
    (on_disconnect st).source_list = st.source_list := by
  simp [on_disconnect, ProjState.connection_ok, ProjState.power,
    ProjState.sourceName, ProjState.source_list]

end Epson
